import Mathlib

/-!
# Verification of the onion feature-extraction and scoring engine

Shallow embedding of the pixel-level feature-extraction and shelf-life
scoring engine (`OnionFeatureExtractor` in the repository's feature
extraction module).  The input raster is modelled as a function from the
row-major pixel index to an RGBA quadruple of naturals; JavaScript float
arithmetic on the values that occur here is modelled over `ℚ`, extended
with explicit `Infinity` / `NaN` values (`JSNum`) where the dimension
estimator can divide by zero.  Each analyzer's per-pixel loop is modelled
as a count / sum over the list of pixel indices it scans, in the source's
scan order.
-/

/-- One RGBA pixel, 8-bit channels (the engine never range-checks them). -/
structure RGBA where
  r : ℕ
  g : ℕ
  b : ℕ
  a : ℕ
deriving DecidableEq, Repr

/-- A raster, indexed by row-major pixel index `y*width + x`
(the source reads `data[(y*width+x)*4 + c]`; we group the four channels). -/
abbrev Raster : Type := ℕ → RGBA

/-- The engine always works on a 224×224 frame. -/
def numPixels : ℕ := 224 * 224

/-- `brightness = (r+g+b)/3`, as in every analyzer. -/
def brightnessRGB (r g b : ℕ) : ℚ := (r + g + b : ℚ) / 3

/-- `saturation = (max-min)/max`, 0 when the max channel is 0. -/
def saturationRGB (r g b : ℕ) : ℚ :=
  let maxColor := max r (max g b)
  let minColor := min r (min g b)
  if maxColor = 0 then 0 else ((maxColor : ℚ) - (minColor : ℚ)) / (maxColor : ℚ)

/-- `isOnionPixel(r, g, b, allowDark)`: the subject-pixel classifier.
The `allowDark` extension falls through to the three colour-family rules
when its inner test fails, exactly as in the source; no analyzer passes
`allowDark = true` (the default call path uses `false`). -/
def isOnionPixel (r g b : ℕ) (allowDark : Bool) : Bool :=
  let brightness := brightnessRGB r g b
  if allowDark ∧ brightness < 80 ∧ 10 < brightness ∧ g ≤ r ∧ b ≤ r ∧ r < 120 then
    true
  else if 80 ≤ r ∧ r ≤ 230 ∧ 50 ≤ g ∧ g ≤ 200 ∧ 20 ≤ b ∧ b ≤ 130 ∧ b + 20 < r then
    true
  else if 170 ≤ r ∧ 170 ≤ g ∧ 170 ≤ b ∧ r ≤ 255 ∧ g ≤ 255 ∧ b ≤ 255 then
    true
  else if 80 ≤ r ∧ r ≤ 180 ∧ 70 ≤ b ∧ b ≤ 170 ∧ g < r + 10 ∧ g < b + 30 then
    true
  else
    false

/-- Subject test at a pixel index (default call path, `allowDark = false`). -/
def isOnionAt (d : Raster) (i : ℕ) : Bool :=
  isOnionPixel (d i).r (d i).g (d i).b false

/-- Brightness at a pixel index. -/
def brightnessAt (d : Raster) (i : ℕ) : ℚ :=
  brightnessRGB (d i).r (d i).g (d i).b

/-- Saturation at a pixel index. -/
def saturationAt (d : Raster) (i : ℕ) : ℚ :=
  saturationRGB (d i).r (d i).g (d i).b

/-! ## Loop combinators

A per-pixel loop that counts the pixels matching a condition, or sums a
quantity over them, is modelled by `countL` / `sumFL` over the list of
indices the loop visits, in loop order. -/

/-- Number of elements of `l` satisfying `p` (a counting loop). -/
def countL (l : List α) (p : α → Bool) : ℕ := (l.filter p).length

/-- Sum of `f` over the elements of `l` satisfying `p` (an accumulating
loop guarded by `continue` on `¬ p`). -/
def sumFL (l : List α) (p : α → Bool) (f : α → ℚ) : ℚ :=
  ((l.filter p).map f).sum

/-! ## JavaScript numbers for the dimension estimator

The dimension estimator's `75 / Math.max(pixelWidth, pixelHeight)` can
divide by zero (yielding `Infinity`) and then multiply it by zero
(yielding `NaN`), so its arithmetic is modelled over `ℚ` extended with
the IEEE special values the source can actually produce. -/

/-- A JavaScript number: a finite rational, `Infinity`, `-Infinity` or `NaN`. -/
inductive JSNum where
  | num : ℚ → JSNum
  | inf : JSNum
  | ninf : JSNum
  | nan : JSNum
deriving DecidableEq, Repr

/-- JavaScript division of finite values (`a / 0` is `±Infinity`, `0/0` is `NaN`). -/
def jsDivQ (a b : ℚ) : JSNum :=
  if b = 0 then (if 0 < a then .inf else if a < 0 then .ninf else .nan)
  else .num (a / b)

/-- JavaScript multiplication (`0 * Infinity` is `NaN`). -/
def jsMul : JSNum → JSNum → JSNum
  | .nan, _ => .nan
  | _, .nan => .nan
  | .num a, .num b => .num (a * b)
  | .num a, .inf => if 0 < a then .inf else if a < 0 then .ninf else .nan
  | .num a, .ninf => if 0 < a then .ninf else if a < 0 then .inf else .nan
  | .inf, .num b => if 0 < b then .inf else if b < 0 then .ninf else .nan
  | .ninf, .num b => if 0 < b then .ninf else if b < 0 then .inf else .nan
  | .inf, .inf => .inf
  | .inf, .ninf => .ninf
  | .ninf, .inf => .ninf
  | .ninf, .ninf => .inf

/-- `Math.round`: half-way cases round toward `+∞`, i.e. `⌊x + 1/2⌋`. -/
def jsRound : JSNum → JSNum
  | .num a => .num ((⌊a + 1/2⌋ : ℤ) : ℚ)
  | .inf => .inf
  | .ninf => .ninf
  | .nan => .nan

/-- Division by the nonzero literal 10 (the one-decimal rounding step). -/
def jsDiv10 : JSNum → JSNum
  | .num a => .num (a / 10)
  | .inf => .inf
  | .ninf => .ninf
  | .nan => .nan

/-- `x < c` for a JavaScript number against a finite constant
(comparisons against `NaN` are false). -/
def jsLt (x : JSNum) (c : ℚ) : Bool :=
  match x with
  | .num a => decide (a < c)
  | .inf => false
  | .ninf => true
  | .nan => false

/-- The record returned by `estimateDimensions`. -/
structure Dimensions where
  length_mm : JSNum
  width_mm : JSNum
  height_mm : JSNum
  diameter_mm : JSNum
  size_class : String
deriving DecidableEq, Repr

/-- `classifySize(diameter)`. -/
def classifySize (diameter : JSNum) : String :=
  if jsLt diameter 50 then "Small"
  else if jsLt diameter 75 then "Medium"
  else if jsLt diameter 100 then "Large"
  else "Extra Large"

/-- Bounding-box accumulator of the dimension scan
(`minX`/`maxX`/`minY`/`maxY`/`onionPixels`). -/
structure BBoxState where
  minX : ℕ
  maxX : ℕ
  minY : ℕ
  maxY : ℕ
  count : ℕ
deriving DecidableEq, Repr

/-- One step of the bounding-box scan at pixel index `p` (`x = p % width`,
`y = p / width`, exactly the source's `idx = (y*width + x) * 4`). -/
def bboxStep (d : Raster) (width : ℕ) (s : BBoxState) (p : ℕ) : BBoxState :=
  if isOnionAt d p then
    { minX := min s.minX (p % width), maxX := max s.maxX (p % width),
      minY := min s.minY (p / width), maxY := max s.maxY (p / width),
      count := s.count + 1 }
  else s

/-- The full bounding-box scan of `estimateDimensions`, starting from
`minX = width`, `maxX = 0`, `minY = height`, `maxY = 0`. -/
def dimsBBox (d : Raster) (width height : ℕ) : BBoxState :=
  (List.range (height * width)).foldl (bboxStep d width)
    { minX := width, maxX := 0, minY := height, maxY := 0, count := 0 }

/-- `estimateDimensions(data, width, height)`: bounding box of subject
pixels, scale factor `75 / max(pixelWidth, pixelHeight)`, dimensions
rounded to one decimal.  `pixelWidth`/`pixelHeight` are signed (they are
negative when no subject pixel is found, because the min/max trackers
never move). -/
def estimateDimensions (d : Raster) (width height : ℕ) : Dimensions :=
  let s := dimsBBox d width height
  let pixelWidth : ℤ := (s.maxX : ℤ) - (s.minX : ℤ)
  let pixelHeight : ℤ := (s.maxY : ℤ) - (s.minY : ℤ)
  let scaleFactor : JSNum := jsDivQ 75 ((max pixelWidth pixelHeight : ℤ) : ℚ)
  { length_mm := jsDiv10 (jsRound (jsMul (jsMul (.num (pixelHeight : ℚ)) scaleFactor) (.num 10)))
    width_mm := jsDiv10 (jsRound (jsMul (jsMul (.num (pixelWidth : ℚ)) scaleFactor) (.num 10)))
    height_mm := jsDiv10 (jsRound (jsMul (jsMul (.num (pixelWidth : ℚ)) scaleFactor) (.num 10)))
    diameter_mm := jsDiv10 (jsRound (jsMul (jsMul (.num ((max pixelWidth pixelHeight : ℤ) : ℚ)) scaleFactor) (.num 10)))
    size_class := classifySize (jsMul (.num ((max pixelWidth pixelHeight : ℤ) : ℚ)) scaleFactor) }

/-! ## Defect, texture, colour and sprout analyzers (224×224 frame) -/

/-- A subject pixel that is "dark" (`20 < brightness < 80`), as counted by
`countBlackSpots`. -/
def darkSpotAt (d : Raster) (i : ℕ) : Bool :=
  isOnionAt d i && decide (brightnessAt d i < 80 ∧ 20 < brightnessAt d i)

/-- `countBlackSpots(data)`: dark-pixel ratio over subject pixels, mapped
through three piecewise-linear bands and clamped by
`Math.min(21, Math.max(0, spotCount))`. -/
def countBlackSpots (d : Raster) : ℤ :=
  let onionPixels := countL (List.range numPixels) (isOnionAt d)
  let darkSpotPixels := countL (List.range numPixels) (darkSpotAt d)
  if onionPixels = 0 then 0
  else
    let darkRatio : ℚ := (darkSpotPixels : ℚ) / (onionPixels : ℚ)
    let spotCount : ℤ :=
      if darkRatio < 0.02 then ⌊darkRatio * 100⌋
      else if darkRatio < 0.08 then 2 + ⌊(darkRatio - 0.02) * 100⌋
      else 8 + ⌊(darkRatio - 0.08) * 150⌋
    min 21 (max 0 spotCount)

/-- Interior coordinates `(y, x)` with `1 ≤ y ≤ 222`, `1 ≤ x ≤ 222`, in the
source's scan order (`y` outer, `x` inner). -/
def interiorCoords : List (ℕ × ℕ) :=
  (List.range 222).flatMap (fun y => (List.range 222).map (fun x => (y + 1, x + 1)))

/-- Subject test at interior coordinate `(y, x)`. -/
def onionCenter (d : Raster) (c : ℕ × ℕ) : Bool :=
  isOnionAt d (c.1 * 224 + c.2)

/-- Mean absolute brightness difference of an interior pixel to its four
orthogonal neighbours (the source's `neighborSum / neighborCount` with
`neighborCount = 4`). -/
def textureContrib (d : Raster) (c : ℕ × ℕ) : ℚ :=
  let y := c.1
  let x := c.2
  let cb := brightnessAt d (y * 224 + x)
  (|cb - brightnessAt d (y * 224 + (x - 1))| + |cb - brightnessAt d (y * 224 + (x + 1))| +
      |cb - brightnessAt d ((y - 1) * 224 + x)| + |cb - brightnessAt d ((y + 1) * 224 + x)|) / 4

/-- `analyzeSurfaceTexture(data)`: average local brightness variance over
interior subject pixels, quantised to 1..4. -/
def analyzeSurfaceTexture (d : Raster) : ℕ :=
  let samples := countL interiorCoords (onionCenter d)
  let totalVariance := sumFL interiorCoords (onionCenter d) (textureContrib d)
  let avgVariance : ℚ := if 0 < samples then totalVariance / (samples : ℚ) else 0
  if avgVariance < 10 then 1
  else if avgVariance < 20 then 2
  else if avgVariance < 35 then 3
  else 4

/-- A subject pixel that is bright, saturated and golden
(`brightness > 120`, `saturation > 0.25`, `r > g > b`). -/
def goodSkinAt (d : Raster) (i : ℕ) : Bool :=
  isOnionAt d i &&
    decide (120 < brightnessAt d i ∧ 0.25 < saturationAt d i ∧
      (d i).g < (d i).r ∧ (d i).b < (d i).g)

/-- A subject pixel that is dark or washed out
(`brightness < 80` or `saturation < 0.15`). -/
def poorSkinAt (d : Raster) (i : ℕ) : Bool :=
  isOnionAt d i && decide (brightnessAt d i < 80 ∨ saturationAt d i < 0.15)

/-- `analyzeSkinCondition(data)`: ordered multi-factor rules, first match
wins; defaults to 3 when there is no subject pixel. -/
def analyzeSkinCondition (d : Raster) : ℕ :=
  let samples := countL (List.range numPixels) (isOnionAt d)
  let totalBrightness := sumFL (List.range numPixels) (isOnionAt d) (brightnessAt d)
  let totalSaturation := sumFL (List.range numPixels) (isOnionAt d) (saturationAt d)
  let goodSkinPixels := countL (List.range numPixels) (goodSkinAt d)
  let poorSkinPixels := countL (List.range numPixels) (poorSkinAt d)
  if samples = 0 then 3
  else
    let avgBrightness := totalBrightness / (samples : ℚ)
    let avgSaturation := totalSaturation / (samples : ℚ)
    let goodRatio : ℚ := (goodSkinPixels : ℚ) / (samples : ℚ)
    let poorRatio : ℚ := (poorSkinPixels : ℚ) / (samples : ℚ)
    if 0.4 < goodRatio ∧ 130 < avgBrightness ∧ 0.30 < avgSaturation then 1
    else if 0.25 < goodRatio ∧ 110 < avgBrightness ∧ 0.25 < avgSaturation then 2
    else if poorRatio < 0.3 ∧ 90 < avgBrightness then 3
    else if poorRatio < 0.5 ∨ 70 < avgBrightness then 4
    else 5

/-- A subject pixel that is bruised (`40 ≤ brightness < 100`, `r ≥ g`, `r ≥ b`). -/
def bruiseAt (d : Raster) (i : ℕ) : Bool :=
  isOnionAt d i &&
    decide (40 ≤ brightnessAt d i ∧ brightnessAt d i < 100 ∧
      (d i).g ≤ (d i).r ∧ (d i).b ≤ (d i).r)

/-- `detectBruises(data)`: 1 when more than 5% of subject pixels are bruised. -/
def detectBruises (d : Raster) : ℕ :=
  let onionPixels := countL (List.range numPixels) (isOnionAt d)
  let bruisedPixels := countL (List.range numPixels) (bruiseAt d)
  if onionPixels = 0 then 0
  else if (0.05 : ℚ) < (bruisedPixels : ℚ) / (onionPixels : ℚ) then 1 else 0

/-- A subject-pixel pair `(y, x)`–`(y, x+1)` where both ends are subject
pixels (a valid comparison of `detectCuts`). -/
def cutsPair (d : Raster) (c : ℕ × ℕ) : Bool :=
  isOnionAt d (c.1 * 224 + c.2) && isOnionAt d (c.1 * 224 + c.2 + 1)

/-- A valid comparison whose absolute brightness difference exceeds 60. -/
def cutsSharp (d : Raster) (c : ℕ × ℕ) : Bool :=
  cutsPair d c &&
    decide (60 < |brightnessAt d (c.1 * 224 + c.2) - brightnessAt d (c.1 * 224 + c.2 + 1)|)

/-- `detectCuts(data)`: scans interior pixels only (`1 ≤ x,y ≤ 222`),
compares each subject pixel with its right-hand neighbour, and returns 1
when more than 3% of the valid comparisons are sharp. -/
def detectCuts (d : Raster) : ℕ :=
  let totalEdgeChecks := countL interiorCoords (cutsPair d)
  let sharpEdgeCount := countL interiorCoords (cutsSharp d)
  if totalEdgeChecks = 0 then 0
  else if (0.03 : ℚ) < (sharpEdgeCount : ℚ) / (totalEdgeChecks : ℚ) then 1 else 0

/-- A subject pixel with the soft-rot signature
(`brightness < 70`, `saturation < 0.25`). -/
def lesionAt (d : Raster) (i : ℕ) : Bool :=
  isOnionAt d i && decide (brightnessAt d i < 70 ∧ saturationAt d i < 0.25)

/-- `detectLesions(data)`: 1 when more than 6% of subject pixels are lesions. -/
def detectLesions (d : Raster) : ℕ :=
  let onionPixels := countL (List.range numPixels) (isOnionAt d)
  let lesionPixels := countL (List.range numPixels) (lesionAt d)
  if onionPixels = 0 then 0
  else if (0.06 : ℚ) < (lesionPixels : ℚ) / (onionPixels : ℚ) then 1 else 0

/-- A green pixel (`g > r+35`, `g > b+35`, `g ≥ 100`); not gated by the
subject classifier. -/
def sproutAt (d : Raster) (i : ℕ) : Bool :=
  decide ((d i).r + 35 < (d i).g ∧ (d i).b + 35 < (d i).g ∧ 100 ≤ (d i).g)

/-- `detectSprouting(data)`: whole-frame green-pixel ratio. -/
def detectSprouting (d : Raster) : ℚ :=
  let greenPixels := countL (List.range numPixels) (sproutAt d)
  let totalPixels := (List.range numPixels).length
  if 0 < totalPixels then (greenPixels : ℚ) / (totalPixels : ℚ) else 0

/-- The record returned by `analyzeColor`. -/
structure ColorAnalysis where
  avg_brightness : ℚ
  avg_saturation : ℚ
deriving DecidableEq, Repr

/-- `analyzeColor(data)`: mean brightness and saturation over subject pixels. -/
def analyzeColor (d : Raster) : ColorAnalysis :=
  let samples := countL (List.range numPixels) (isOnionAt d)
  let totalBrightness := sumFL (List.range numPixels) (isOnionAt d) (brightnessAt d)
  let totalSaturation := sumFL (List.range numPixels) (isOnionAt d) (saturationAt d)
  { avg_brightness := if 0 < samples then totalBrightness / (samples : ℚ) else 0
    avg_saturation := if 0 < samples then totalSaturation / (samples : ℚ) else 0 }

/-- The feature record handed to the shelf-life estimator.  The damage
flags are the 0/1 numbers the source computes. -/
structure FeatureRecord where
  dimensions : Dimensions
  black_spots_count : ℤ
  surface_texture_score : ℕ
  skin_condition_score : ℕ
  has_bruises : ℕ
  has_cuts : ℕ
  has_lesions : ℕ
  color_analysis : ColorAnalysis
  sprouting_detected : ℚ
  visible_damage_flag : ℕ
deriving DecidableEq, Repr

/-- The analytic core of `extractFeatures` (the canvas/DOM acquisition of
the 224×224 raster is the excluded Image Source collaborator).
`visible_damage_flag = (has_bruises || has_cuts || has_lesions) ? 1 : 0`. -/
def extractFeaturesCore (d : Raster) : FeatureRecord :=
  let hb := detectBruises d
  let hc := detectCuts d
  let hl := detectLesions d
  { dimensions := estimateDimensions d 224 224
    black_spots_count := countBlackSpots d
    surface_texture_score := analyzeSurfaceTexture d
    skin_condition_score := analyzeSkinCondition d
    has_bruises := hb
    has_cuts := hc
    has_lesions := hl
    color_analysis := analyzeColor d
    sprouting_detected := detectSprouting d
    visible_damage_flag := if hb ≠ 0 ∨ hc ≠ 0 ∨ hl ≠ 0 then 1 else 0 }

/-- The mutable state of an `OnionFeatureExtractor` instance: the
`this.features` field, empty after the constructor. -/
structure ExtractorState where
  features : Option FeatureRecord
deriving DecidableEq, Repr

/-- `extractFeatures(imageElement)` as a state transformer: it computes
the record from the raster alone and overwrites `this.features` with it. -/
def extractFeatures (_st : ExtractorState) (d : Raster) : FeatureRecord × ExtractorState :=
  let features := extractFeaturesCore d
  (features, { features := some features })

/-- `calculateShelfLife(features)`: the deterministic scoring formula,
rounded and clamped by `Math.max(0, Math.min(37, Math.round(shelfLife)))`. -/
def calculateShelfLife (f : FeatureRecord) : ℤ :=
  let s0 : ℚ := 30
  let s1 : ℚ := s0 - (f.black_spots_count : ℚ) * 0.8
  let s2 : ℚ := s1 - ((f.surface_texture_score : ℚ) - 1) * 3
  let s3 : ℚ := s2 - ((f.skin_condition_score : ℚ) - 1) * 4
  let s4 : ℚ := s3 - (f.visible_damage_flag : ℚ) * 8
  let s5 : ℚ :=
    if 0.05 < f.sprouting_detected then s4 - 10
    else if 0.02 < f.sprouting_detected then s4 - 5
    else s4
  max 0 (min 37 ⌊s5 + 1/2⌋)

/-- `getQualityGrade(shelfLife)`. -/
def getQualityGrade (shelfLife : ℤ) : String :=
  if 25 < shelfLife then "A"
  else if 18 < shelfLife then "B"
  else if 10 < shelfLife then "C"
  else "D"

/-! ## Bounded flood fill (`floodFill`)

The source's stack-based loop terminates because neighbours are pushed
only while fewer than 100 pixels have been counted; the loop is modelled
with a fuel parameter, and `floodLoop_fuel_irrel` below shows that any
fuel at least `stack.length + 5 * (100 - min count 100)` (501 at the
entry state) gives the loop's true result, so the fixed fuel of 1000 in
`floodFill` is exact. -/

/-- One run of the `while (stack.length > 0)` loop of `floodFill`.
The stack's head is its top; a visit pushes `[x+1,y]`, `[x-1,y]`,
`[x,y+1]`, `[x,y-1]` in source order, so `[x,y-1]` is popped first.
`visited` is the source's `Set` of `"x,y"` keys. -/
def floodLoop (d : Raster) (width height : ℕ) :
    ℕ → List (ℤ × ℤ) → List (ℤ × ℤ) → ℕ → ℕ × List (ℤ × ℤ)
  | 0, _, visited, count => (count, visited)
  | _ + 1, [], visited, count => (count, visited)
  | fuel + 1, (x, y) :: rest, visited, count =>
    if (x, y) ∈ visited ∨ x < 0 ∨ (width : ℤ) ≤ x ∨ y < 0 ∨ (height : ℤ) ≤ y then
      floodLoop d width height fuel rest visited count
    else if 60 ≤ brightnessRGB (d (y.toNat * width + x.toNat)).r
        (d (y.toNat * width + x.toNat)).g (d (y.toNat * width + x.toNat)).b then
      floodLoop d width height fuel rest visited count
    else if count + 1 < 100 then
      floodLoop d width height fuel
        ((x, y - 1) :: (x, y + 1) :: (x - 1, y) :: (x + 1, y) :: rest)
        ((x, y) :: visited) (count + 1)
    else
      floodLoop d width height fuel rest ((x, y) :: visited) (count + 1)

/-- `floodFill(data, startX, startY, width, height, visited)`: returns the
region size together with the visited set the source mutates in place. -/
def floodFill (d : Raster) (startX startY : ℤ) (width height : ℕ)
    (visited : List (ℤ × ℤ)) : ℕ × List (ℤ × ℤ) :=
  floodLoop d width height 1000 [(startX, startY)] visited 0

/-! ## Concrete rasters used as test inputs -/

/-- The all-black raster: every pixel `R=G=B=0` (opaque alpha). -/
def allBlackRaster : Raster := fun _ => { r := 0, g := 0, b := 0, a := 255 }

/-- The all-black raster with a fully transparent alpha channel. -/
def allBlackAlpha0 : Raster := fun _ => { r := 0, g := 0, b := 0, a := 0 }

/-- All black except a single golden (warm-rule) pixel at `(x,y) = (223,223)`,
i.e. pixel index 50175: exactly one subject pixel. -/
def oneGoldenRaster : Raster := fun p =>
  if p = 50175 then { r := 150, g := 120, b := 60, a := 255 }
  else { r := 0, g := 0, b := 0, a := 255 }

/-- Row 0 alternates white `(200,200,200)` and golden `(150,120,60)` subject
pixels (every adjacent pair differs by 90 in brightness); every other row
is black.  All its subject pixels lie on the border row the interior scan
of `detectCuts` never visits. -/
def rowCutsRaster : Raster := fun p =>
  if p < 224 then
    (if p % 2 = 0 then { r := 200, g := 200, b := 200, a := 255 }
     else { r := 150, g := 120, b := 60, a := 255 })
  else { r := 0, g := 0, b := 0, a := 255 }


/-! ## Spec-side definitions

Definitions written from the specification's / claims' wording, to be
compared against the source-derived definitions above. -/

/-- The spec's description of the black-spot count: the fraction of
subject pixels whose brightness is strictly between 20 and 80, mapped
through the three bands and clamped to `[0, 21]`; 0 with no subject
pixels. -/
def specBlackSpots (d : Raster) : ℤ :=
  let subjectPixels := countL (List.range numPixels) (isOnionAt d)
  let darkPixels := countL (List.range numPixels)
    (fun i => isOnionAt d i && decide (20 < brightnessAt d i ∧ brightnessAt d i < 80))
  if subjectPixels = 0 then 0
  else
    let darkRatio : ℚ := (darkPixels : ℚ) / (subjectPixels : ℚ)
    let spots : ℤ :=
      if darkRatio < 0.02 then ⌊darkRatio * 100⌋
      else if darkRatio < 0.08 then 2 + ⌊(darkRatio - 0.02) * 100⌋
      else 8 + ⌊(darkRatio - 0.08) * 150⌋
    max 0 (min 21 spots)

/-- The spec's description of the scoring formula: baseline 30, the five
deductions with the damage flag read as a boolean, rounded to the nearest
integer and clamped to `[0, 37]`. -/
def specShelfLife (f : FeatureRecord) : ℤ :=
  let p : ℚ :=
    if 0.05 < f.sprouting_detected then 10
    else if 0.02 < f.sprouting_detected then 5
    else 0
  let raw : ℚ := 30 - (f.black_spots_count : ℚ) * 0.8 - ((f.surface_texture_score : ℚ) - 1) * 3
    - ((f.skin_condition_score : ℚ) - 1) * 4
    - (if f.visible_damage_flag ≠ 0 then (8 : ℚ) else 0) - p
  min 37 (max 0 ⌊raw + 1/2⌋)

/-- Every coordinate `(y, x)` of the frame whose right-hand neighbour
`(y, x+1)` is also inside the frame: `0 ≤ y ≤ 223`, `0 ≤ x ≤ 222`. -/
def allRightCoords : List (ℕ × ℕ) :=
  (List.range 224).flatMap (fun y => (List.range 223).map (fun x => (y, x)))

/-- The claim's description of the cut detector, quantified over *every*
subject pixel of the frame that has an in-frame subject right-hand
neighbour (not just interior pixels): true iff the sharp fraction of
those comparisons exceeds 0.03, false when no valid comparison exists. -/
def specCutsAll (d : Raster) : Bool :=
  let total := countL allRightCoords (cutsPair d)
  let sharp := countL allRightCoords (cutsSharp d)
  if total = 0 then false else decide ((0.03 : ℚ) < (sharp : ℚ) / (total : ℚ))

/-- The cut-detector description restricted to the interior coordinates
the source actually scans (`1 ≤ x, y ≤ 222`). -/
def specCutsInterior (d : Raster) : Bool :=
  let total := countL interiorCoords (cutsPair d)
  let sharp := countL interiorCoords (cutsSharp d)
  if total = 0 then false else decide ((0.03 : ℚ) < (sharp : ℚ) / (total : ℚ))

/-- Two rasters agree on the R, G and B channels of every pixel (the
alpha channel may differ arbitrarily). -/
def sameRGB (d₁ d₂ : Raster) : Prop :=
  ∀ i, (d₁ i).r = (d₂ i).r ∧ (d₁ i).g = (d₂ i).g ∧ (d₁ i).b = (d₂ i).b

/-- A concrete feature record (3 spots, slightly wrinkled, good skin,
bruised, 3% sprouting) used to instantiate record-level theorems. -/
def sampleRecord : FeatureRecord :=
  { dimensions := { length_mm := .num 75, width_mm := .num 70, height_mm := .num 70,
                    diameter_mm := .num 75, size_class := "Large" },
    black_spots_count := 3,
    surface_texture_score := 2,
    skin_condition_score := 2,
    has_bruises := 1,
    has_cuts := 0,
    has_lesions := 0,
    color_analysis := { avg_brightness := 120, avg_saturation := 1/2 },
    sprouting_detected := 0.03,
    visible_damage_flag := 1 }
theorem countL_nil (p : α → Bool) : countL [] p = 0 := rfl

theorem countL_append (l₁ l₂ : List α) (p : α → Bool) :
    countL (l₁ ++ l₂) p = countL l₁ p + countL l₂ p := by
  simp [countL, List.filter_append]

theorem filter_eq_nil_of_mem_false {l : List α} {p : α → Bool}
    (h : ∀ a ∈ l, p a = false) : l.filter p = [] := by
  induction l with
  | nil => rfl
  | cons x xs ih =>
    rw [List.filter_cons, h x (by simp)]
    simp only [Bool.false_eq_true, if_false]
    exact ih (fun a ha => h a (by simp [ha]))

theorem countL_eq_zero_of_mem_false {l : List α} {p : α → Bool}
    (h : ∀ a ∈ l, p a = false) : countL l p = 0 := by
  simp [countL, filter_eq_nil_of_mem_false h]

theorem countL_eq_zero_of_false {l : List α} {p : α → Bool}
    (h : ∀ a, p a = false) : countL l p = 0 :=
  countL_eq_zero_of_mem_false (fun a _ => h a)

theorem sumFL_eq_zero_of_mem_false {l : List α} {p : α → Bool} (f : α → ℚ)
    (h : ∀ a ∈ l, p a = false) : sumFL l p f = 0 := by
  simp [sumFL, filter_eq_nil_of_mem_false h]

theorem sumFL_eq_zero_of_false {l : List α} {p : α → Bool} (f : α → ℚ)
    (h : ∀ a, p a = false) : sumFL l p f = 0 :=
  sumFL_eq_zero_of_mem_false f (fun a _ => h a)

theorem countL_map (l : List α) (f : α → β) (p : β → Bool) :
    countL (l.map f) p = countL l (fun a => p (f a)) := by
  simp only [countL, List.filter_map, List.length_map]
  rfl

theorem countL_congr {l : List α} {p q : α → Bool}
    (h : ∀ a ∈ l, p a = q a) : countL l p = countL l q := by
  simp only [countL]
  rw [List.filter_congr h]

theorem sumFL_congr {l : List α} {p q : α → Bool} {f g : α → ℚ}
    (hpq : ∀ a ∈ l, p a = q a) (hfg : ∀ a ∈ l, f a = g a) :
    sumFL l p f = sumFL l q g := by
  simp only [sumFL]
  rw [List.filter_congr hpq]
  congr 1
  apply List.map_congr_left
  intro a ha
  exact hfg a (List.mem_of_mem_filter ha)

theorem foldl_noop {l : List α} {f : β → α → β} {s : β}
    (h : ∀ s' a, a ∈ l → f s' a = s') : l.foldl f s = s := by
  induction l generalizing s with
  | nil => rfl
  | cons x xs ih =>
    rw [List.foldl_cons, h s x (by simp)]
    exact ih (fun s' a ha => h s' a (by simp [ha]))

theorem foldl_congr_fun {l : List α} {f g : β → α → β} {s : β}
    (h : ∀ s' a, f s' a = g s' a) : l.foldl f s = l.foldl g s := by
  induction l generalizing s with
  | nil => rfl
  | cons x xs ih => rw [List.foldl_cons, List.foldl_cons, h s x]; exact ih

/-! ## Evaluation on the all-black raster

`isOnionPixel 0 0 0 = false`, so every per-pixel predicate is false at
every index and every analyzer takes its zero-sample branch — except the
dimension estimator, whose untouched min/max trackers give
`pixelWidth = pixelHeight = 0 - 224 = -224` and hence a *negative* scale
factor `75 / (-224)` that cancels back to dimensions of exactly 75.0. -/

theorem allBlack_onion (i : ℕ) : isOnionAt allBlackRaster i = false := rfl

theorem allBlack_onionCount :
    countL (List.range numPixels) (isOnionAt allBlackRaster) = 0 :=
  countL_eq_zero_of_false (fun _ => rfl)

theorem allBlack_countBlackSpots : countBlackSpots allBlackRaster = 0 := by
  simp [countBlackSpots, allBlack_onionCount]

theorem allBlack_skin : analyzeSkinCondition allBlackRaster = 3 := by
  simp [analyzeSkinCondition, allBlack_onionCount]

theorem allBlack_bruises : detectBruises allBlackRaster = 0 := by
  simp [detectBruises, allBlack_onionCount]

theorem allBlack_lesions : detectLesions allBlackRaster = 0 := by
  simp [detectLesions, allBlack_onionCount]

theorem allBlack_cuts : detectCuts allBlackRaster = 0 := by
  simp [detectCuts, countL_eq_zero_of_false (fun (_ : ℕ × ℕ) => (rfl : cutsPair allBlackRaster _ = false))]

theorem allBlack_texture : analyzeSurfaceTexture allBlackRaster = 1 := by
  have h1 : countL interiorCoords (onionCenter allBlackRaster) = 0 :=
    countL_eq_zero_of_false (fun _ => rfl)
  have h2 : sumFL interiorCoords (onionCenter allBlackRaster) (textureContrib allBlackRaster) = 0 :=
    sumFL_eq_zero_of_false _ (fun _ => rfl)
  simp [analyzeSurfaceTexture, h1, h2]

theorem allBlack_color : analyzeColor allBlackRaster = { avg_brightness := 0, avg_saturation := 0 } := by
  simp [analyzeColor, allBlack_onionCount]

theorem allBlack_sprout : detectSprouting allBlackRaster = 0 := by
  have h : countL (List.range numPixels) (sproutAt allBlackRaster) = 0 :=
    countL_eq_zero_of_false (fun _ => rfl)
  simp [detectSprouting, h]

theorem dimsBBox_allBlack : dimsBBox allBlackRaster 224 224 =
    { minX := 224, maxX := 0, minY := 224, maxY := 0, count := 0 } :=
  foldl_noop (fun _ _ _ => rfl)

theorem estimateDimensions_allBlack : estimateDimensions allBlackRaster 224 224 =
    { length_mm := .num 75, width_mm := .num 75, height_mm := .num 75,
      diameter_mm := .num 75, size_class := "Large" } := by
  simp only [estimateDimensions, dimsBBox_allBlack]
  norm_num [jsDivQ, jsMul, jsRound, jsDiv10, classifySize, jsLt]

theorem allBlack_features : extractFeaturesCore allBlackRaster =
    { dimensions := { length_mm := .num 75, width_mm := .num 75, height_mm := .num 75,
                       diameter_mm := .num 75, size_class := "Large" },
      black_spots_count := 0,
      surface_texture_score := 1,
      skin_condition_score := 3,
      has_bruises := 0,
      has_cuts := 0,
      has_lesions := 0,
      color_analysis := { avg_brightness := 0, avg_saturation := 0 },
      sprouting_detected := 0,
      visible_damage_flag := 0 } := by
  simp [extractFeaturesCore, allBlack_countBlackSpots, allBlack_skin, allBlack_bruises,
    allBlack_lesions, allBlack_cuts, allBlack_texture, allBlack_color, allBlack_sprout,
    estimateDimensions_allBlack]

/-! ## Evaluation on the single-golden-pixel raster

Exactly one subject pixel, at `(x, y) = (223, 223)`: the bounding box is
degenerate (`pixelWidth = pixelHeight = 0`), the scale factor is
`75 / 0 = Infinity`, and every dimension is `0 * Infinity = NaN`. -/

theorem oneGolden_onion_ne {i : ℕ} (h : i ≠ 50175) :
    isOnionAt oneGoldenRaster i = false := by
  simp only [isOnionAt, oneGoldenRaster]
  rw [if_neg h]
  rfl

theorem oneGolden_onionCount :
    countL (List.range numPixels) (isOnionAt oneGoldenRaster) = 1 := by
  have e : numPixels = 50175 + 1 := by norm_num [numPixels]
  have h0 : countL (List.range 50175) (isOnionAt oneGoldenRaster) = 0 :=
    countL_eq_zero_of_mem_false (fun a ha => oneGolden_onion_ne (by
      have := List.mem_range.mp ha; omega))
  rw [e, List.range_succ, countL_append, h0]
  rfl

theorem dimsBBox_oneGolden : dimsBBox oneGoldenRaster 224 224 =
    { minX := 223, maxX := 223, minY := 223, maxY := 223, count := 1 } := by
  have e : 224 * 224 = 50175 + 1 := by norm_num
  have h0 : (List.range 50175).foldl (bboxStep oneGoldenRaster 224)
      { minX := 224, maxX := 0, minY := 224, maxY := 0, count := 0 } =
      { minX := 224, maxX := 0, minY := 224, maxY := 0, count := 0 } :=
    foldl_noop (fun s a ha => by
      have h : a ≠ 50175 := by have := List.mem_range.mp ha; omega
      simp [bboxStep, oneGolden_onion_ne h])
  unfold dimsBBox
  rw [e, List.range_succ, List.foldl_append, h0]
  show bboxStep oneGoldenRaster 224 _ 50175 = _
  have honion : isOnionAt oneGoldenRaster 50175 = true := rfl
  simp only [bboxStep, honion, if_true]
  norm_num

theorem estimateDimensions_oneGolden : estimateDimensions oneGoldenRaster 224 224 =
    { length_mm := .nan, width_mm := .nan, height_mm := .nan,
      diameter_mm := .nan, size_class := "Extra Large" } := by
  simp only [estimateDimensions, dimsBBox_oneGolden]
  norm_num [jsDivQ, jsMul, jsRound, jsDiv10, classifySize, jsLt]

/-! ## Grid scan decomposition lemmas -/

theorem countL_flatMap {l : List α} {f : α → List β} {p : β → Bool} :
    countL (l.flatMap f) p = (l.map (fun a => countL (f a) p)).sum := by
  induction l with
  | nil => rfl
  | cons x xs ih => simp [List.flatMap_cons, countL_append, ih]

theorem countL_true (l : List α) : countL l (fun _ => true) = l.length := by
  simp [countL]

theorem countL_interior_eq_zero {p : ℕ × ℕ → Bool}
    (hp : ∀ y x, p (y + 1, x + 1) = false) : countL interiorCoords p = 0 := by
  rw [interiorCoords, countL_flatMap]
  apply List.sum_eq_zero
  intro z hz
  simp only [List.mem_map] at hz
  obtain ⟨y, _, rfl⟩ := hz
  rw [countL_map]
  exact countL_eq_zero_of_false (fun x => hp y x)

theorem countL_rows_row0 {h w : ℕ} {p : ℕ × ℕ → Bool}
    (hp : ∀ y x, p (y + 1, x) = false) :
    countL ((List.range (h + 1)).flatMap fun y => (List.range w).map fun x => (y, x)) p
      = countL (List.range w) (fun x => p (0, x)) := by
  rw [countL_flatMap, List.range_succ_eq_map]
  rw [List.map_cons, List.sum_cons, List.map_map]
  have hz : ((List.range h).map
      ((fun a => countL ((List.range w).map fun x => (a, x)) p) ∘ Nat.succ)).sum = 0 := by
    apply List.sum_eq_zero
    intro z hz
    simp only [List.mem_map, Function.comp] at hz
    obtain ⟨y, _, rfl⟩ := hz
    rw [countL_map]
    exact countL_eq_zero_of_false (fun x => hp y x)
  rw [hz, countL_map]
  omega

/-! ## Evaluation on the border-row checkerboard raster

All 224 pixels of row 0 are subject pixels alternating between
brightness 200 (white) and 110 (golden); every other row is black.
Every one of the 223 horizontal neighbour pairs of row 0 is a valid
comparison with brightness difference 90 > 60; the interior scan of
`detectCuts` sees none of them. -/

theorem rowCuts_black {i : ℕ} (h : ¬ i < 224) :
    rowCutsRaster i = { r := 0, g := 0, b := 0, a := 255 } := by
  simp [rowCutsRaster, h]

theorem rowCuts_onion {j : ℕ} (hj : j < 224) : isOnionAt rowCutsRaster j = true := by
  simp only [isOnionAt, rowCutsRaster, if_pos hj]
  by_cases h2 : j % 2 = 0
  · rw [if_pos h2]
    rfl
  · rw [if_neg h2]
    rfl

theorem rowCuts_brightness_even {j : ℕ} (hj : j < 224) (h2 : j % 2 = 0) :
    brightnessAt rowCutsRaster j = 200 := by
  simp only [brightnessAt, rowCutsRaster, if_pos hj, if_pos h2]
  norm_num [brightnessRGB]

theorem rowCuts_brightness_odd {j : ℕ} (hj : j < 224) (h2 : ¬ j % 2 = 0) :
    brightnessAt rowCutsRaster j = 110 := by
  simp only [brightnessAt, rowCutsRaster, if_pos hj, if_neg h2]
  norm_num [brightnessRGB]

theorem rowCuts_pair_true {x : ℕ} (hx : x < 223) :
    cutsPair rowCutsRaster (0, x) = true := by
  have h1 : (0, x).1 * 224 + (0, x).2 = x := by simp
  simp only [cutsPair, h1]
  rw [rowCuts_onion (by omega), rowCuts_onion (by omega)]
  rfl

theorem rowCuts_sharp_true {x : ℕ} (hx : x < 223) :
    cutsSharp rowCutsRaster (0, x) = true := by
  have h1 : (0, x).1 * 224 + (0, x).2 = x := by simp
  simp only [cutsSharp, rowCuts_pair_true hx, h1, Bool.true_and]
  rw [decide_eq_true_iff]
  by_cases h2 : x % 2 = 0
  · rw [rowCuts_brightness_even (by omega) h2,
      rowCuts_brightness_odd (by omega) (by omega)]
    norm_num
  · rw [rowCuts_brightness_odd (by omega) h2,
      rowCuts_brightness_even (by omega) (by omega)]
    norm_num

theorem rowCuts_pair_border {y x : ℕ} : cutsPair rowCutsRaster (y + 1, x) = false := by
  simp only [cutsPair]
  have : ¬ (y + 1, x).1 * 224 + (y + 1, x).2 < 224 := by simp; omega
  rw [isOnionAt, rowCuts_black this]
  rfl

theorem rowCuts_pair_interior {y x : ℕ} :
    cutsPair rowCutsRaster (y + 1, x + 1) = false :=
  rowCuts_pair_border

theorem rowCuts_sharp_border {y x : ℕ} : cutsSharp rowCutsRaster (y + 1, x) = false := by
  simp [cutsSharp, rowCuts_pair_border]

theorem rowCuts_allPairs :
    countL allRightCoords (cutsPair rowCutsRaster) = 223 := by
  rw [allRightCoords, show (224 : ℕ) = 223 + 1 from rfl]
  rw [countL_rows_row0 (fun y x => rowCuts_pair_border)]
  rw [countL_congr (fun x hx => rowCuts_pair_true (List.mem_range.mp hx))]
  rw [countL_true, List.length_range]

theorem rowCuts_allSharp :
    countL allRightCoords (cutsSharp rowCutsRaster) = 223 := by
  rw [allRightCoords, show (224 : ℕ) = 223 + 1 from rfl]
  rw [countL_rows_row0 (fun y x => rowCuts_sharp_border)]
  rw [countL_congr (fun x hx => rowCuts_sharp_true (List.mem_range.mp hx))]
  rw [countL_true, List.length_range]

theorem rowCuts_detectCuts : detectCuts rowCutsRaster = 0 := by
  have h : countL interiorCoords (cutsPair rowCutsRaster) = 0 :=
    countL_interior_eq_zero (fun y x => rowCuts_pair_interior)
  simp [detectCuts, h]

theorem rowCuts_specCutsAll : specCutsAll rowCutsRaster = true := by
  simp only [specCutsAll, rowCuts_allPairs, rowCuts_allSharp]
  norm_num

/-! ## Flood-fill invariants -/

theorem floodLoop_nil (d : Raster) (w h : ℕ) (fuel : ℕ) (visited : List (ℤ × ℤ))
    (count : ℕ) : floodLoop d w h fuel [] visited count = (count, visited) := by
  cases fuel <;> rfl

theorem floodLoop_zero (d : Raster) (w h : ℕ) (stack visited : List (ℤ × ℤ))
    (count : ℕ) : floodLoop d w h 0 stack visited count = (count, visited) := by
  cases stack <;> rfl

theorem floodLoop_spec (d : Raster) (w h : ℕ) :
    ∀ fuel (stack visited : List (ℤ × ℤ)) (count : ℕ),
      ∃ newV : List (ℤ × ℤ),
        (floodLoop d w h fuel stack visited count).2 = newV ++ visited ∧
        (floodLoop d w h fuel stack visited count).1 = count + newV.length ∧
        newV.Nodup ∧
        ∀ c ∈ newV, c ∉ visited ∧ 0 ≤ c.1 ∧ c.1 < w ∧ 0 ≤ c.2 ∧ c.2 < h ∧
          brightnessRGB (d (c.2.toNat * w + c.1.toNat)).r (d (c.2.toNat * w + c.1.toNat)).g
            (d (c.2.toNat * w + c.1.toNat)).b < 60 := by
  intro fuel
  induction fuel with
  | zero =>
    intro stack visited count
    exact ⟨[], by rw [floodLoop_zero]; rfl, by rw [floodLoop_zero]; rfl, List.nodup_nil, by simp⟩
  | succ fuel ih =>
    intro stack visited count
    match stack with
    | [] => exact ⟨[], by rw [floodLoop_nil]; rfl, by rw [floodLoop_nil]; rfl, List.nodup_nil, by simp⟩
    | (x, y) :: rest =>
      simp only [floodLoop]
      split_ifs with h1 h2 h3
      · exact ih rest visited count
      · exact ih rest visited count
      · obtain ⟨nv, e2, e1, nd, mem⟩ :=
          ih ((x, y - 1) :: (x, y + 1) :: (x - 1, y) :: (x + 1, y) :: rest)
            ((x, y) :: visited) (count + 1)
        push_neg at h1
        refine ⟨nv ++ [(x, y)], ?_, ?_, ?_, ?_⟩
        · rw [e2]; simp
        · rw [e1]; simp; omega
        · rw [List.nodup_append]
          refine ⟨nd, List.nodup_singleton _, ?_⟩
          intro a ha hmem
          simp only [List.mem_singleton] at hmem
          subst hmem
          exact (mem _ ha).1 (List.mem_cons_self _ _)
        · intro c hc
          rcases List.mem_append.mp hc with hc | hc
          · obtain ⟨hnv, rest'⟩ := mem c hc
            exact ⟨fun hv => hnv (by simp [hv]), rest'⟩
          · simp only [List.mem_singleton] at hc
            subst hc
            refine ⟨h1.1, by omega, by omega, by omega, by omega, by linarith [not_le.mp h2]⟩
      · obtain ⟨nv, e2, e1, nd, mem⟩ := ih rest ((x, y) :: visited) (count + 1)
        push_neg at h1
        refine ⟨nv ++ [(x, y)], ?_, ?_, ?_, ?_⟩
        · rw [e2]; simp
        · rw [e1]; simp; omega
        · rw [List.nodup_append]
          refine ⟨nd, List.nodup_singleton _, ?_⟩
          intro a ha hmem
          simp only [List.mem_singleton] at hmem
          subst hmem
          exact (mem _ ha).1 (List.mem_cons_self _ _)
        · intro c hc
          rcases List.mem_append.mp hc with hc | hc
          · obtain ⟨hnv, rest'⟩ := mem c hc
            exact ⟨fun hv => hnv (by simp [hv]), rest'⟩
          · simp only [List.mem_singleton] at hc
            subst hc
            refine ⟨h1.1, by omega, by omega, by omega, by omega, by linarith [not_le.mp h2]⟩

theorem floodLoop_count_le (d : Raster) (w h : ℕ) :
    ∀ fuel (stack visited : List (ℤ × ℤ)) (count : ℕ),
      (floodLoop d w h fuel stack visited count).1 ≤
        count + stack.length + 4 * (99 - min count 99) := by
  intro fuel
  induction fuel with
  | zero =>
    intro stack visited count
    rw [floodLoop_zero]
    omega
  | succ fuel ih =>
    intro stack visited count
    match stack with
    | [] =>
      rw [floodLoop_nil]
      omega
    | (x, y) :: rest =>
      simp only [floodLoop]
      split_ifs with h1 h2 h3
      · have := ih rest visited count
        simp only [List.length_cons]
        omega
      · have := ih rest visited count
        simp only [List.length_cons]
        omega
      · have := ih ((x, y - 1) :: (x, y + 1) :: (x - 1, y) :: (x + 1, y) :: rest)
          ((x, y) :: visited) (count + 1)
        simp only [List.length_cons] at this ⊢
        omega
      · have := ih rest ((x, y) :: visited) (count + 1)
        simp only [List.length_cons]
        omega

theorem floodLoop_fuel_irrel (d : Raster) (w h : ℕ) :
    ∀ fuel k (stack visited : List (ℤ × ℤ)) (count : ℕ),
      stack.length + 5 * (100 - min count 100) ≤ fuel →
      floodLoop d w h fuel stack visited count =
        floodLoop d w h (fuel + k) stack visited count := by
  intro fuel
  induction fuel with
  | zero =>
    intro k stack visited count hm
    have : stack = [] := List.length_eq_zero.mp (by omega)
    subst this
    rw [floodLoop_nil, floodLoop_nil]
  | succ fuel ih =>
    intro k stack visited count hm
    match stack with
    | [] => rw [floodLoop_nil, floodLoop_nil]
    | (x, y) :: rest =>
      have e : fuel + 1 + k = (fuel + k) + 1 := by omega
      rw [e]
      simp only [floodLoop]
      simp only [List.length_cons] at hm
      split_ifs with h1 h2 h3
      · exact ih k rest visited count (by omega)
      · exact ih k rest visited count (by omega)
      · exact ih k ((x, y - 1) :: (x, y + 1) :: (x - 1, y) :: (x + 1, y) :: rest)
          ((x, y) :: visited) (count + 1) (by simp; omega)
      · exact ih k rest ((x, y) :: visited) (count + 1) (by omega)

/-! ## Alpha-channel independence: congruence of every analyzer under
agreement of the R, G, B channels -/

theorem sameRGB_onion {d₁ d₂ : Raster} (h : sameRGB d₁ d₂) (i : ℕ) :
    isOnionAt d₁ i = isOnionAt d₂ i := by
  unfold isOnionAt
  rw [(h i).1, (h i).2.1, (h i).2.2]

theorem sameRGB_brightness {d₁ d₂ : Raster} (h : sameRGB d₁ d₂) (i : ℕ) :
    brightnessAt d₁ i = brightnessAt d₂ i := by
  unfold brightnessAt
  rw [(h i).1, (h i).2.1, (h i).2.2]

theorem sameRGB_saturation {d₁ d₂ : Raster} (h : sameRGB d₁ d₂) (i : ℕ) :
    saturationAt d₁ i = saturationAt d₂ i := by
  unfold saturationAt
  rw [(h i).1, (h i).2.1, (h i).2.2]

theorem sameRGB_onionCount {d₁ d₂ : Raster} (h : sameRGB d₁ d₂) :
    countL (List.range numPixels) (isOnionAt d₁) = countL (List.range numPixels) (isOnionAt d₂) :=
  countL_congr (fun i _ => sameRGB_onion h i)

theorem sameRGB_countBlackSpots {d₁ d₂ : Raster} (h : sameRGB d₁ d₂) :
    countBlackSpots d₁ = countBlackSpots d₂ := by
  have c2 : countL (List.range numPixels) (darkSpotAt d₁) =
      countL (List.range numPixels) (darkSpotAt d₂) :=
    countL_congr (fun i _ => by
      unfold darkSpotAt
      rw [sameRGB_onion h i, sameRGB_brightness h i])
  simp only [countBlackSpots, sameRGB_onionCount h, c2]

theorem sameRGB_texture {d₁ d₂ : Raster} (h : sameRGB d₁ d₂) :
    analyzeSurfaceTexture d₁ = analyzeSurfaceTexture d₂ := by
  have hc : ∀ c : ℕ × ℕ, onionCenter d₁ c = onionCenter d₂ c := fun c => by
    unfold onionCenter
    rw [sameRGB_onion h]
  have hf : ∀ c : ℕ × ℕ, textureContrib d₁ c = textureContrib d₂ c := fun c => by
    unfold textureContrib
    simp only [sameRGB_brightness h]
  have c1 : countL interiorCoords (onionCenter d₁) = countL interiorCoords (onionCenter d₂) :=
    countL_congr (fun c _ => hc c)
  have c2 : sumFL interiorCoords (onionCenter d₁) (textureContrib d₁) =
      sumFL interiorCoords (onionCenter d₂) (textureContrib d₂) :=
    sumFL_congr (fun c _ => hc c) (fun c _ => hf c)
  simp only [analyzeSurfaceTexture, c1, c2]

theorem sameRGB_skin {d₁ d₂ : Raster} (h : sameRGB d₁ d₂) :
    analyzeSkinCondition d₁ = analyzeSkinCondition d₂ := by
  have c2 : sumFL (List.range numPixels) (isOnionAt d₁) (brightnessAt d₁) =
      sumFL (List.range numPixels) (isOnionAt d₂) (brightnessAt d₂) :=
    sumFL_congr (fun i _ => sameRGB_onion h i) (fun i _ => sameRGB_brightness h i)
  have c3 : sumFL (List.range numPixels) (isOnionAt d₁) (saturationAt d₁) =
      sumFL (List.range numPixels) (isOnionAt d₂) (saturationAt d₂) :=
    sumFL_congr (fun i _ => sameRGB_onion h i) (fun i _ => sameRGB_saturation h i)
  have c4 : countL (List.range numPixels) (goodSkinAt d₁) =
      countL (List.range numPixels) (goodSkinAt d₂) :=
    countL_congr (fun i _ => by
      unfold goodSkinAt
      rw [sameRGB_onion h i, sameRGB_brightness h i, sameRGB_saturation h i,
        (h i).1, (h i).2.1, (h i).2.2])
  have c5 : countL (List.range numPixels) (poorSkinAt d₁) =
      countL (List.range numPixels) (poorSkinAt d₂) :=
    countL_congr (fun i _ => by
      unfold poorSkinAt
      rw [sameRGB_onion h i, sameRGB_brightness h i, sameRGB_saturation h i])
  simp only [analyzeSkinCondition, sameRGB_onionCount h, c2, c3, c4, c5]

theorem sameRGB_bruises {d₁ d₂ : Raster} (h : sameRGB d₁ d₂) :
    detectBruises d₁ = detectBruises d₂ := by
  have c2 : countL (List.range numPixels) (bruiseAt d₁) =
      countL (List.range numPixels) (bruiseAt d₂) :=
    countL_congr (fun i _ => by
      unfold bruiseAt
      rw [sameRGB_onion h i, sameRGB_brightness h i, (h i).1, (h i).2.1, (h i).2.2])
  simp only [detectBruises, sameRGB_onionCount h, c2]

theorem sameRGB_cuts {d₁ d₂ : Raster} (h : sameRGB d₁ d₂) :
    detectCuts d₁ = detectCuts d₂ := by
  have c1 : countL interiorCoords (cutsPair d₁) = countL interiorCoords (cutsPair d₂) :=
    countL_congr (fun c _ => by
      unfold cutsPair
      rw [sameRGB_onion h, sameRGB_onion h])
  have c2 : countL interiorCoords (cutsSharp d₁) = countL interiorCoords (cutsSharp d₂) :=
    countL_congr (fun c _ => by
      unfold cutsSharp cutsPair
      rw [sameRGB_onion h, sameRGB_onion h, sameRGB_brightness h, sameRGB_brightness h])
  simp only [detectCuts, c1, c2]

theorem sameRGB_lesions {d₁ d₂ : Raster} (h : sameRGB d₁ d₂) :
    detectLesions d₁ = detectLesions d₂ := by
  have c2 : countL (List.range numPixels) (lesionAt d₁) =
      countL (List.range numPixels) (lesionAt d₂) :=
    countL_congr (fun i _ => by
      unfold lesionAt
      rw [sameRGB_onion h i, sameRGB_brightness h i, sameRGB_saturation h i])
  simp only [detectLesions, sameRGB_onionCount h, c2]

theorem sameRGB_sprout {d₁ d₂ : Raster} (h : sameRGB d₁ d₂) :
    detectSprouting d₁ = detectSprouting d₂ := by
  have c1 : countL (List.range numPixels) (sproutAt d₁) =
      countL (List.range numPixels) (sproutAt d₂) :=
    countL_congr (fun i _ => by
      unfold sproutAt
      rw [(h i).1, (h i).2.1, (h i).2.2])
  simp only [detectSprouting, c1]

theorem sameRGB_color {d₁ d₂ : Raster} (h : sameRGB d₁ d₂) :
    analyzeColor d₁ = analyzeColor d₂ := by
  have c2 : sumFL (List.range numPixels) (isOnionAt d₁) (brightnessAt d₁) =
      sumFL (List.range numPixels) (isOnionAt d₂) (brightnessAt d₂) :=
    sumFL_congr (fun i _ => sameRGB_onion h i) (fun i _ => sameRGB_brightness h i)
  have c3 : sumFL (List.range numPixels) (isOnionAt d₁) (saturationAt d₁) =
      sumFL (List.range numPixels) (isOnionAt d₂) (saturationAt d₂) :=
    sumFL_congr (fun i _ => sameRGB_onion h i) (fun i _ => sameRGB_saturation h i)
  simp only [analyzeColor, sameRGB_onionCount h, c2, c3]

theorem sameRGB_dims {d₁ d₂ : Raster} (h : sameRGB d₁ d₂) :
    estimateDimensions d₁ 224 224 = estimateDimensions d₂ 224 224 := by
  have hb : dimsBBox d₁ 224 224 = dimsBBox d₂ 224 224 :=
    foldl_congr_fun (fun s p => by
      unfold bboxStep
      rw [sameRGB_onion h p])
  simp only [estimateDimensions, hb]

theorem sameRGB_features {d₁ d₂ : Raster} (h : sameRGB d₁ d₂) :
    extractFeaturesCore d₁ = extractFeaturesCore d₂ := by
  simp only [extractFeaturesCore, sameRGB_countBlackSpots h, sameRGB_texture h,
    sameRGB_skin h, sameRGB_bruises h, sameRGB_cuts h, sameRGB_lesions h,
    sameRGB_sprout h, sameRGB_color h, sameRGB_dims h]

/-! ## Shared arithmetic helpers for the claim theorems -/

theorem clamp37_comm (z : ℤ) : max 0 (min 37 z) = min 37 (max 0 z) := by omega

theorem clamp21_comm (z : ℤ) : min 21 (max 0 z) = max 0 (min 21 z) := by omega

theorem allBlack_shelfLife : calculateShelfLife (extractFeaturesCore allBlackRaster) = 22 := by
  rw [allBlack_features]
  unfold calculateShelfLife
  norm_num

/-! ## The claims -/

/-- C1 (counterexample): on the all-black 224×224 raster the engine's
shelf life is not 30 — the default skin-condition score of 3 incurs the
`(3-1)*4 = 8`-day deduction, giving 22. -/
theorem claim1_counterexample :
    calculateShelfLife (extractFeaturesCore allBlackRaster) ≠ 30 := by
  rw [allBlack_shelfLife]
  decide

/-- C1 (amended): for the all-black 224×224 raster the engine detects
zero subject pixels and returns black_spots_count = 0,
skin_condition_score = 3, has_bruises = has_cuts = has_lesions = false,
visible_damage_flag = false, color averages 0/0, sprouting_detected = 0 —
but the shelf life is 22 days (the neutral default skin score of 3 is
still penalised by 8 days) and the grade is B, not 30 days / grade A. -/
theorem claim1_allBlack :
    countL (List.range numPixels) (isOnionAt allBlackRaster) = 0 ∧
    (extractFeaturesCore allBlackRaster).black_spots_count = 0 ∧
    (extractFeaturesCore allBlackRaster).skin_condition_score = 3 ∧
    (extractFeaturesCore allBlackRaster).has_bruises = 0 ∧
    (extractFeaturesCore allBlackRaster).has_cuts = 0 ∧
    (extractFeaturesCore allBlackRaster).has_lesions = 0 ∧
    (extractFeaturesCore allBlackRaster).visible_damage_flag = 0 ∧
    (extractFeaturesCore allBlackRaster).color_analysis =
      { avg_brightness := 0, avg_saturation := 0 } ∧
    (extractFeaturesCore allBlackRaster).sprouting_detected = 0 ∧
    calculateShelfLife (extractFeaturesCore allBlackRaster) = 22 ∧
    getQualityGrade (calculateShelfLife (extractFeaturesCore allBlackRaster)) = "B" := by
  refine ⟨allBlack_onionCount, ?_, ?_, ?_, ?_, ?_, ?_, ?_, ?_, allBlack_shelfLife, ?_⟩
  · rw [allBlack_features]
  · rw [allBlack_features]
  · rw [allBlack_features]
  · rw [allBlack_features]
  · rw [allBlack_features]
  · rw [allBlack_features]
  · rw [allBlack_features]
  · rw [allBlack_features]
  · rw [allBlack_shelfLife]
    rfl

/-- C2: with zero subject pixels the dimension estimator does *not*
guard the degenerate bounding box: `pixelWidth = pixelHeight = -224`,
the scale factor is `75 / (-224)`, and all four dimensions come out as
exactly 75.0 with size_class "Large" — not 0 and "Small" as specified. -/
theorem claim2_allBlack_dimensions :
    countL (List.range numPixels) (isOnionAt allBlackRaster) = 0 ∧
    estimateDimensions allBlackRaster 224 224 =
      { length_mm := .num 75, width_mm := .num 75, height_mm := .num 75,
        diameter_mm := .num 75, size_class := "Large" } :=
  ⟨allBlack_onionCount, estimateDimensions_allBlack⟩

/-- C3: for every feature record whose damage flag is the 0/1 value the
engine produces, `calculateShelfLife` computes exactly the spec's
rounded, clamped deduction formula. -/
theorem claim3_shelfLife_formula :
    ∀ f : FeatureRecord, f.visible_damage_flag ≤ 1 →
      calculateShelfLife f = specShelfLife f := by
  intro f hf
  have h01 : f.visible_damage_flag = 0 ∨ f.visible_damage_flag = 1 := by omega
  unfold calculateShelfLife specShelfLife
  rcases h01 with h | h <;> rw [h] <;> rw [clamp37_comm] <;> split_ifs <;>
    first
    | (exfalso; omega)
    | (congr 3; push_cast; ring)

/-- C3 witness at a concrete record. -/
theorem claim3_shelfLife_formula_witness :
    sampleRecord.visible_damage_flag ≤ 1 ∧
      calculateShelfLife sampleRecord = specShelfLife sampleRecord :=
  ⟨by decide, claim3_shelfLife_formula sampleRecord (by decide)⟩

/-- C4: the grade is a strict step function of the days value — A iff
days > 25, B iff 18 < days ≤ 25, C iff 10 < days ≤ 18, D iff days ≤ 10,
with no overlapping bands — and re-deriving days from the same record is
bit-identical. -/
theorem claim4_grade_bands :
    (∀ s : ℤ,
      (getQualityGrade s = "A" ↔ 25 < s) ∧
      (getQualityGrade s = "B" ↔ 18 < s ∧ s ≤ 25) ∧
      (getQualityGrade s = "C" ↔ 10 < s ∧ s ≤ 18) ∧
      (getQualityGrade s = "D" ↔ s ≤ 10)) ∧
    (∀ f : FeatureRecord, calculateShelfLife f = calculateShelfLife f) := by
  constructor
  · intro s
    unfold getQualityGrade
    split_ifs with h1 h2 h3
    · exact ⟨iff_of_true rfl h1, iff_of_false (by decide) (by omega),
        iff_of_false (by decide) (by omega), iff_of_false (by decide) (by omega)⟩
    · exact ⟨iff_of_false (by decide) (by omega), iff_of_true rfl (by omega),
        iff_of_false (by decide) (by omega), iff_of_false (by decide) (by omega)⟩
    · exact ⟨iff_of_false (by decide) (by omega), iff_of_false (by decide) (by omega),
        iff_of_true rfl (by omega), iff_of_false (by decide) (by omega)⟩
    · exact ⟨iff_of_false (by decide) (by omega), iff_of_false (by decide) (by omega),
        iff_of_false (by decide) (by omega), iff_of_true rfl (by omega)⟩
  · intro f
    rfl

/-- C5: the black-spot count is exactly the spec's piecewise map of the
dark ratio (brightness strictly between 20 and 80 over subject pixels),
clamped to [0, 21], and 0 with zero subject pixels. -/
theorem claim5_blackSpots_spec : ∀ d : Raster, countBlackSpots d = specBlackSpots d := by
  intro d
  have hcong : countL (List.range numPixels) (darkSpotAt d) =
      countL (List.range numPixels)
        (fun i => isOnionAt d i && decide (20 < brightnessAt d i ∧ brightnessAt d i < 80)) :=
    countL_congr (fun i _ =>
      congrArg (fun b => isOnionAt d i && b) (decide_eq_decide.mpr and_comm))
  simp only [countBlackSpots, specBlackSpots]
  rw [hcong]
  split_ifs <;> first | rfl | exact clamp21_comm _

/-- C6: with exactly one subject pixel the bounding box is degenerate,
the scale factor is the unguarded `75 / 0 = Infinity`, and all four
dimensions are `0 * Infinity = NaN` (size_class "Extra Large") — not
finite non-negative floats. -/
theorem claim6_singlePixel_nan :
    countL (List.range numPixels) (isOnionAt oneGoldenRaster) = 1 ∧
    estimateDimensions oneGoldenRaster 224 224 =
      { length_mm := .nan, width_mm := .nan, height_mm := .nan,
        diameter_mm := .nan, size_class := "Extra Large" } :=
  ⟨oneGolden_onionCount, estimateDimensions_oneGolden⟩

/-- C7 (counterexample): a raster whose only subject pixels lie on border
row 0 — all 223 of its neighbour pairs are sharp subject-subject
comparisons, so the claim's whole-frame quantifier says has_cuts = true —
while the code's interior scan sees no comparison at all and returns 0. -/
theorem claim7_counterexample :
    detectCuts rowCutsRaster = 0 ∧ specCutsAll rowCutsRaster = true :=
  ⟨rowCuts_detectCuts, rowCuts_specCutsAll⟩

/-- C7 (amended): has_cuts is 1 iff, over the *interior* subject pixels
(`1 ≤ x, y ≤ 222`) whose right-hand neighbour is also a subject pixel,
the sharp fraction exceeds 0.03; with no valid comparison it is 0. -/
theorem claim7_cuts_interior :
    ∀ d : Raster, detectCuts d = if specCutsInterior d then 1 else 0 := by
  intro d
  simp only [detectCuts, specCutsInterior]
  by_cases h : countL interiorCoords (cutsPair d) = 0
  · simp [h]
  · simp only [if_neg h]
    by_cases h2 : (0.03 : ℚ) <
        (countL interiorCoords (cutsSharp d) : ℚ) / (countL interiorCoords (cutsPair d) : ℚ)
    · simp [h2]
    · simp [h2]

set_option maxRecDepth 1000000 in
/-- C8 (counterexample): the 100-pixel cap only stops the *pushing* of
neighbours; entries already on the stack keep being counted, so on an
all-black (everywhere-dark) raster scanned as a 12×12 grid from seed
(6, 6) the returned region size is 111 > 100. -/
theorem claim8_counterexample : 100 < (floodFill allBlackRaster 6 6 12 12 []).1 := by
  with_unfolding_all decide

/-- C8 (amended): the flood fill counts only in-grid pixels of brightness
strictly below 60, never counts a coordinate already visited (each new
coordinate once, none from the initial set), and neighbour expansion
stops once 100 pixels are counted — which bounds the returned size by
397, though it can exceed 100. -/
theorem claim8_floodFill_invariants :
    ∀ (d : Raster) (w h : ℕ) (sx sy : ℤ) (visited : List (ℤ × ℤ)),
      ∃ newV : List (ℤ × ℤ),
        (floodFill d sx sy w h visited).2 = newV ++ visited ∧
        (floodFill d sx sy w h visited).1 = newV.length ∧
        newV.Nodup ∧
        (∀ c ∈ newV, c ∉ visited ∧ 0 ≤ c.1 ∧ c.1 < w ∧ 0 ≤ c.2 ∧ c.2 < h ∧
          brightnessRGB (d (c.2.toNat * w + c.1.toNat)).r (d (c.2.toNat * w + c.1.toNat)).g
            (d (c.2.toNat * w + c.1.toNat)).b < 60) ∧
        (floodFill d sx sy w h visited).1 ≤ 397 := by
  intro d w h sx sy visited
  obtain ⟨nv, e2, e1, nd, mem⟩ := floodLoop_spec d w h 1000 [(sx, sy)] visited 0
  have hb := floodLoop_count_le d w h 1000 [(sx, sy)] visited 0
  refine ⟨nv, e2, ?_, nd, mem, ?_⟩
  · unfold floodFill
    rw [e1]
    omega
  · unfold floodFill
    simp only [List.length_cons, List.length_nil] at hb
    omega

/-- C9: feature extraction and shelf-life scoring are pure — the record,
the days value and the grade do not depend on the `this.features` state
left by any previous call, and a second call on the identical raster
reproduces the first call's results exactly. -/
theorem claim9_stateless :
    ∀ (s₁ s₂ : ExtractorState) (d : Raster),
      (extractFeatures s₁ d).1 = (extractFeatures s₂ d).1 ∧
      (extractFeatures (extractFeatures s₁ d).2 d).1 = (extractFeatures s₁ d).1 ∧
      calculateShelfLife (extractFeatures s₁ d).1 = calculateShelfLife (extractFeatures s₂ d).1 ∧
      getQualityGrade (calculateShelfLife (extractFeatures s₁ d).1) =
        getQualityGrade (calculateShelfLife (extractFeatures s₂ d).1) :=
  fun _ _ _ => ⟨rfl, rfl, rfl, rfl⟩

/-- C10: two rasters that agree on R, G and B at every pixel produce
identical feature records — no analyzer reads the alpha channel. -/
theorem claim10_alpha_independent :
    ∀ d₁ d₂ : Raster, sameRGB d₁ d₂ → extractFeaturesCore d₁ = extractFeaturesCore d₂ :=
  fun _ _ h => sameRGB_features h

/-- C10 witness: opaque vs. fully transparent all-black rasters. -/
theorem claim10_alpha_independent_witness :
    sameRGB allBlackRaster allBlackAlpha0 ∧
      extractFeaturesCore allBlackRaster = extractFeaturesCore allBlackAlpha0 :=
  ⟨fun _ => ⟨rfl, rfl, rfl⟩,
    claim10_alpha_independent allBlackRaster allBlackAlpha0 (fun _ => ⟨rfl, rfl, rfl⟩)⟩
